import Mathlib

/-!
Shallow embedding of the duckdb_client repository:
src/duckdb_client/src/duckdb_client/client.py (class DuckDBClient) and
src/duckdb_client/src/duckdb_client/cli.py (the command handlers).

External collaborators are modelled as parameters of an environment `Env`:
the embedded DuckDB engine as an oracle from statement text to a result
table or an error message, the filesystem as a partial map from path to
file contents, and the tabulate library as an uninterpreted rendering
function.  Observable effects (statements sent to the engine, result
materialisations via fetchdf, log lines, console prints, client-side file
writes, and releases of the underlying connection handle) are recorded in
a `Trace` threaded through every operation.  Raising a Python exception is
modelled by returning `Except.error`; `sys.exit(1)` and an exception
escaping a handler are distinguished by the `Outcome` type.
-/

namespace DuckDB

/-- Single-quote character, as interpolated into SQL statement templates. -/
def sq : String := String.singleton (Char.ofNat 39)

/-- In-memory result table (the pandas DataFrame returned by fetchdf):
named columns and ordered rows; cell contents are abstracted as strings. -/
structure Table where
  cols : List String
  rows : List (List String)
deriving Repr, DecidableEq

/-- Python exception values the modelled code can raise or propagate:
errors raised by the engine (duckdb.connect or conn.execute),
FileNotFoundError, and AttributeError on a None connection. -/
inductive PyError where
  | engine (msg : String)
  | fileNotFound (msg : String)
  | attr (msg : String)
deriving Repr, DecidableEq

/-- Rendering of an exception by str(e), as interpolated into log lines. -/
def PyError.str : PyError → String
  | .engine m => m
  | .fileNotFound m => m
  | .attr m => m

/-- Trace of the observable effects of one run: statements sent to the
engine via conn.execute, the number of client-side result
materialisations (fetchdf calls), info-level and error-level log lines,
strings printed to stdout, files written client-side (DataFrame.to_csv),
and the number of releases of the underlying connection handle
(conn.close calls). -/
structure Trace where
  sent : List String
  fetches : Nat
  infoLogs : List String
  errLogs : List String
  prints : List String
  writes : List String
  closes : Nat
deriving Repr, DecidableEq

/-- The empty trace at process start. -/
def Trace.empty : Trace := ⟨[], 0, [], [], [], [], 0⟩

/-- Environment of external collaborators: duckdb.connect (succeeds or
raises with a message), the engine as an oracle from statement text to a
result table or an error message, the filesystem as a map from path to
optional file contents, and the tabulate rendering function from the
tabulate library (receives the full table and the format style). -/
structure Env where
  connect : String → Except String Unit
  engine : String → Except String Table
  fs : String → Option String
  tabulate : Table → String → String

/-- The client object: class DuckDBClient of client.py.  Field db_path
mirrors self.db_path; conn is the optional connection handle
(self.conn, None when absent), per the explicit present-versus-released
ownership the source maintains. -/
structure DuckDBClient where
  db_path : String
  conn : Option Unit
deriving Repr, DecidableEq

/-- Python truthiness of the db_path argument of DuckDBClient.__init__:
self.db_path = str(db_path) if db_path else ":memory:".  None and the
empty string are falsy. -/
def effectivePath : Option String → String
  | none => ":memory:"
  | some s => if s = "" then ":memory:" else s

/-- Python truthiness of an optional string command-line argument
(if args.output_csv: ...): absent or empty means falsy. -/
def strTruthy : Option String → Bool
  | none => false
  | some s => !(s == "")

/-- DuckDBClient.__init__ together with _connect (client.py lines 30-49):
sets self.conn = None, then opens the connection; on failure logs one
error line and re-raises, on success logs the connected-info line.  The
partially initialised object left behind by a failed construction is
exactly a client with conn = none. -/
def DuckDBClient.init (env : Env) (db_path : Option String) (tr : Trace) :
    Except PyError DuckDBClient × Trace :=
  let p := effectivePath db_path
  match env.connect p with
  | .error msg =>
      (.error (.engine msg),
        { tr with errLogs := tr.errLogs ++ ["Failed to connect to database: " ++ msg] })
  | .ok _ =>
      (.ok ⟨p, some ()⟩,
        { tr with infoLogs := tr.infoLogs ++ ["Connected to DuckDB: " ++ p] })

/-- DuckDBClient.execute_query (client.py lines 51-84), with the params
argument omitted: no caller in the repository passes params (it defaults
to None).  Sends the text to conn.execute; on success materialises the
result with fetchdf and logs the row-count info line; on failure logs two
error lines (the cause, and the query text) and re-raises the SAME
exception unchanged.  Calling through a None connection raises
AttributeError inside the try, which is likewise logged and re-raised. -/
def DuckDBClient.execute_query (env : Env) (c : DuckDBClient) (q : String) (tr : Trace) :
    Except PyError Table × Trace :=
  match c.conn with
  | none =>
      let e := PyError.attr ("NoneType object has no attribute execute")
      (.error e,
        { tr with errLogs := tr.errLogs ++
            ["Query execution failed: " ++ e.str, "Query: " ++ q] })
  | some _ =>
      match env.engine q with
      | .error msg =>
          (.error (.engine msg),
            { tr with sent := tr.sent ++ [q],
                      errLogs := tr.errLogs ++
                        ["Query execution failed: " ++ msg, "Query: " ++ q] })
      | .ok df =>
          (.ok df,
            { tr with sent := tr.sent ++ [q], fetches := tr.fetches + 1,
                      infoLogs := tr.infoLogs ++
                        ["Query executed successfully: " ++ toString df.rows.length
                          ++ " rows returned"] })

/-- DuckDBClient.execute_file (client.py lines 86-109): checks existence,
raising FileNotFoundError before anything else when the path is absent;
otherwise logs the info line, reads the full file text (UTF-8) and
delegates to execute_query on that text. -/
def DuckDBClient.execute_file (env : Env) (c : DuckDBClient) (sql_file : String) (tr : Trace) :
    Except PyError Table × Trace :=
  match env.fs sql_file with
  | none => (.error (.fileNotFound ("SQL file not found: " ++ sql_file)), tr)
  | some sql =>
      DuckDBClient.execute_query env c sql
        { tr with infoLogs := tr.infoLogs ++ ["Executing SQL file: " ++ sql_file] }

/-- DuckDBClient.show_tables (client.py lines 111-118). -/
def DuckDBClient.show_tables (env : Env) (c : DuckDBClient) (tr : Trace) :
    Except PyError Table × Trace :=
  DuckDBClient.execute_query env c ("SHOW TABLES") tr

/-- DuckDBClient.describe_table (client.py lines 120-130): the table name
is interpolated verbatim into the fixed template. -/
def DuckDBClient.describe_table (env : Env) (c : DuckDBClient) (table_name : String) (tr : Trace) :
    Except PyError Table × Trace :=
  DuckDBClient.execute_query env c ("DESCRIBE " ++ table_name) tr

/-- Declared default of the limit parameter of get_table_sample
(client.py line 132: limit: int = 10). -/
def sample_limit_default : Int := 10

/-- DuckDBClient.get_table_sample (client.py lines 132-143): the table
name and the limit are interpolated verbatim into the fixed template;
limit is a Python int, modelled as Int (str(-5) agrees with toString). -/
def DuckDBClient.get_table_sample (env : Env) (c : DuckDBClient) (table_name : String)
    (limit : Int) (tr : Trace) : Except PyError Table × Trace :=
  DuckDBClient.execute_query env c
    ("SELECT * FROM " ++ table_name ++ " LIMIT " ++ toString limit) tr

/-- DuckDBClient.export_to_csv (client.py lines 145-162): runs the query
through execute_query, then writes the materialised DataFrame to the
output file with to_csv (modelled as an always-successful client-side
write recorded in the trace) and logs the info lines.  Path(p) is
modelled by its string p. -/
def DuckDBClient.export_to_csv (env : Env) (c : DuckDBClient) (q : String)
    (output_file : String) (tr : Trace) : Except PyError Unit × Trace :=
  let tr0 := { tr with infoLogs := tr.infoLogs ++
    ["Exporting query result to CSV: " ++ output_file] }
  match DuckDBClient.execute_query env c q tr0 with
  | (.error e, tr1) => (.error e, tr1)
  | (.ok result, tr1) =>
      (.ok (),
        { tr1 with writes := tr1.writes ++ [output_file],
                   infoLogs := tr1.infoLogs ++
                     ["Successfully exported " ++ toString result.rows.length
                       ++ " rows to " ++ output_file] })

/-- DuckDBClient.export_to_parquet (client.py lines 164-181): sends the
native bulk-copy statement directly through conn.execute, ignoring the
returned handle - no fetchdf, so no client-side materialisation.
Path(p) is modelled by its string p. -/
def DuckDBClient.export_to_parquet (env : Env) (c : DuckDBClient) (q : String)
    (output_file : String) (tr : Trace) : Except PyError Unit × Trace :=
  let tr0 := { tr with infoLogs := tr.infoLogs ++
    ["Exporting query result to Parquet: " ++ output_file] }
  match c.conn with
  | none => (.error (PyError.attr ("NoneType object has no attribute execute")), tr0)
  | some _ =>
      let stmt := "COPY (" ++ q ++ ") TO " ++ sq ++ output_file ++ sq ++ " (FORMAT PARQUET)"
      match env.engine stmt with
      | .error msg => (.error (.engine msg), { tr0 with sent := tr0.sent ++ [stmt] })
      | .ok _ =>
          (.ok (),
            { tr0 with sent := tr0.sent ++ [stmt],
                       infoLogs := tr0.infoLogs ++
                         ["Successfully exported to " ++ output_file] })

/-- DuckDBClient.import_csv (client.py lines 183-204): raises
FileNotFoundError before any logging or engine contact when the source is
absent; otherwise logs the info line and issues one
create-table-as-select statement through execute_query. -/
def DuckDBClient.import_csv (env : Env) (c : DuckDBClient) (csv_file table_name : String)
    (tr : Trace) : Except PyError Unit × Trace :=
  match env.fs csv_file with
  | none => (.error (.fileNotFound ("CSV file not found: " ++ csv_file)), tr)
  | some _ =>
      let tr0 := { tr with infoLogs := tr.infoLogs ++
        ["Importing CSV to table " ++ sq ++ table_name ++ sq ++ ": " ++ csv_file] }
      let query := "CREATE TABLE " ++ table_name ++ " AS SELECT * FROM read_csv_auto("
        ++ sq ++ csv_file ++ sq ++ ")"
      match DuckDBClient.execute_query env c query tr0 with
      | (.error e, tr1) => (.error e, tr1)
      | (.ok _, tr1) =>
          (.ok (), { tr1 with infoLogs := tr1.infoLogs ++
            ["Successfully imported " ++ csv_file ++ " to table "
              ++ sq ++ table_name ++ sq] })

/-- DuckDBClient.import_parquet (client.py lines 206-227): same shape as
import_csv with the read_parquet reader. -/
def DuckDBClient.import_parquet (env : Env) (c : DuckDBClient) (parquet_file table_name : String)
    (tr : Trace) : Except PyError Unit × Trace :=
  match env.fs parquet_file with
  | none => (.error (.fileNotFound ("Parquet file not found: " ++ parquet_file)), tr)
  | some _ =>
      let tr0 := { tr with infoLogs := tr.infoLogs ++
        ["Importing Parquet to table " ++ sq ++ table_name ++ sq ++ ": " ++ parquet_file] }
      let query := "CREATE TABLE " ++ table_name ++ " AS SELECT * FROM read_parquet("
        ++ sq ++ parquet_file ++ sq ++ ")"
      match DuckDBClient.execute_query env c query tr0 with
      | (.error e, tr1) => (.error e, tr1)
      | (.ok _, tr1) =>
          (.ok (), { tr1 with infoLogs := tr1.infoLogs ++
            ["Successfully imported " ++ parquet_file ++ " to table "
              ++ sq ++ table_name ++ sq] })

/-- DuckDBClient.close (client.py lines 229-234): if self.conn is present,
release the underlying handle, log the info line and clear the stored
handle; otherwise do nothing.  The guard makes the function total - the
only conceivable raise, attribute access on None, is exactly what the
guard prevents - so close never raises, and this is a plain function
rather than an Except-valued one. -/
def DuckDBClient.close (c : DuckDBClient) (tr : Trace) : DuckDBClient × Trace :=
  match c.conn with
  | some _ =>
      ({ c with conn := none },
        { tr with closes := tr.closes + 1,
                  infoLogs := tr.infoLogs ++ ["Database connection closed"] })
  | none => (c, tr)

/-- Result of running one command handler: the handler body returned
normally (the process will go on to exit 0), sys.exit(code) was invoked,
or an exception escaped the handler uncaught (the interpreter prints a
traceback and terminates abnormally). -/
inductive Outcome where
  | normal
  | exited (code : Nat)
  | uncaught (e : PyError)
deriving Repr, DecidableEq

/-- The shared shape of every command handler in cli.py:
with DuckDBClient(args.db) as client, then try: body
except Exception as e: logger.error(errLine e); sys.exit(1).
The with-expression is OUTSIDE the try, so a construction failure
propagates uncaught (the finaliser runs close on the partial object,
whose conn is None - a no-op).  On the normal path and on the sys.exit
path alike, scoped exit (context-manager close) runs first and the
finaliser close runs afterwards. -/
def withClientTry (env : Env) (db : Option String)
    (body : DuckDBClient → Trace → Except PyError Unit × Trace)
    (errLine : PyError → String) (tr : Trace) : Outcome × Trace :=
  match DuckDBClient.init env db tr with
  | (.error e, tr1) =>
      let (_, tr2) := DuckDBClient.close ⟨effectivePath db, none⟩ tr1
      (.uncaught e, tr2)
  | (.ok c, tr1) =>
      match body c tr1 with
      | (.ok _, tr2) =>
          let (c2, tr3) := DuckDBClient.close c tr2
          let (_, tr4) := DuckDBClient.close c2 tr3
          (.normal, tr4)
      | (.error e, tr2) =>
          let tr3 := { tr2 with errLogs := tr2.errLogs ++ [errLine e] }
          let (c2, tr4) := DuckDBClient.close c tr3
          let (_, tr5) := DuckDBClient.close c2 tr4
          (.exited 1, tr5)

/-- print_dataframe (cli.py lines 25-38): a zero-row table prints the
fixed notice and returns; otherwise the full table is rendered by
tabulate in the selected style and the row-count footer follows. -/
def print_dataframe (env : Env) (df : Table) (format_style : String) (tr : Trace) : Trace :=
  if df.rows.length = 0 then
    { tr with prints := tr.prints ++ ["No results."] }
  else
    { tr with prints := tr.prints ++
        [env.tabulate df format_style,
         "\n(" ++ toString df.rows.length ++ " rows)"] }

/-- Body of cmd_query (cli.py lines 41-60): execute the query, then
either write the DataFrame to CSV client-side, or issue the Parquet
export (running the same SQL text a second time inside COPY), or render
to the console.  The output options are tested by Python truthiness. -/
def cmd_query_body (env : Env) (q fmt : String) (ocsv opq : Option String)
    (c : DuckDBClient) (tr : Trace) : Except PyError Unit × Trace :=
  match DuckDBClient.execute_query env c q tr with
  | (.error e, tr1) => (.error e, tr1)
  | (.ok result, tr1) =>
      if strTruthy ocsv then
        let f := ocsv.getD ""
        (.ok (),
          { tr1 with writes := tr1.writes ++ [f],
                     prints := tr1.prints ++
                       ["Successfully exported " ++ toString result.rows.length
                         ++ " rows to: " ++ f] })
      else if strTruthy opq then
        let f := opq.getD ""
        match DuckDBClient.export_to_parquet env c q f tr1 with
        | (.error e, tr2) => (.error e, tr2)
        | (.ok _, tr2) =>
            (.ok (), { tr2 with prints := tr2.prints ++ ["Successfully exported to: " ++ f] })
      else
        (.ok (), print_dataframe env result fmt tr1)

/-- cmd_query (cli.py lines 41-60). -/
def cmd_query (env : Env) (db : Option String) (q fmt : String)
    (ocsv opq : Option String) (tr : Trace) : Outcome × Trace :=
  withClientTry env db (cmd_query_body env q fmt ocsv opq)
    (fun e => "Query execution failed: " ++ e.str) tr

/-- Body of cmd_file (cli.py lines 63-71). -/
def cmd_file_body (env : Env) (p fmt : String) (c : DuckDBClient) (tr : Trace) :
    Except PyError Unit × Trace :=
  match DuckDBClient.execute_file env c p tr with
  | (.error e, tr1) => (.error e, tr1)
  | (.ok result, tr1) => (.ok (), print_dataframe env result fmt tr1)

/-- cmd_file (cli.py lines 63-71). -/
def cmd_file (env : Env) (db : Option String) (p fmt : String) (tr : Trace) : Outcome × Trace :=
  withClientTry env db (cmd_file_body env p fmt)
    (fun e => "File execution failed: " ++ e.str) tr

/-- Body of cmd_tables (cli.py lines 74-82). -/
def cmd_tables_body (env : Env) (fmt : String) (c : DuckDBClient) (tr : Trace) :
    Except PyError Unit × Trace :=
  match DuckDBClient.show_tables env c tr with
  | (.error e, tr1) => (.error e, tr1)
  | (.ok result, tr1) => (.ok (), print_dataframe env result fmt tr1)

/-- cmd_tables (cli.py lines 74-82). -/
def cmd_tables (env : Env) (db : Option String) (fmt : String) (tr : Trace) : Outcome × Trace :=
  withClientTry env db (cmd_tables_body env fmt)
    (fun e => "Failed to show tables: " ++ e.str) tr

/-- Body of cmd_describe (cli.py lines 85-93). -/
def cmd_describe_body (env : Env) (t fmt : String) (c : DuckDBClient) (tr : Trace) :
    Except PyError Unit × Trace :=
  match DuckDBClient.describe_table env c t tr with
  | (.error e, tr1) => (.error e, tr1)
  | (.ok result, tr1) => (.ok (), print_dataframe env result fmt tr1)

/-- cmd_describe (cli.py lines 85-93). -/
def cmd_describe (env : Env) (db : Option String) (t fmt : String) (tr : Trace) :
    Outcome × Trace :=
  withClientTry env db (cmd_describe_body env t fmt)
    (fun e => "Failed to describe table: " ++ e.str) tr

/-- Body of cmd_sample (cli.py lines 96-104). -/
def cmd_sample_body (env : Env) (t : String) (limit : Int) (fmt : String)
    (c : DuckDBClient) (tr : Trace) : Except PyError Unit × Trace :=
  match DuckDBClient.get_table_sample env c t limit tr with
  | (.error e, tr1) => (.error e, tr1)
  | (.ok result, tr1) => (.ok (), print_dataframe env result fmt tr1)

/-- cmd_sample (cli.py lines 96-104). -/
def cmd_sample (env : Env) (db : Option String) (t : String) (limit : Int) (fmt : String)
    (tr : Trace) : Outcome × Trace :=
  withClientTry env db (cmd_sample_body env t limit fmt)
    (fun e => "Failed to get sample data: " ++ e.str) tr

/-- Body of cmd_export_csv (cli.py lines 107-114). -/
def cmd_export_csv_body (env : Env) (q out : String) (c : DuckDBClient) (tr : Trace) :
    Except PyError Unit × Trace :=
  match DuckDBClient.export_to_csv env c q out tr with
  | (.error e, tr1) => (.error e, tr1)
  | (.ok _, tr1) =>
      (.ok (), { tr1 with prints := tr1.prints ++ ["Successfully exported to: " ++ out] })

/-- cmd_export_csv (cli.py lines 107-114). -/
def cmd_export_csv (env : Env) (db : Option String) (q out : String) (tr : Trace) :
    Outcome × Trace :=
  withClientTry env db (cmd_export_csv_body env q out)
    (fun e => "CSV export failed: " ++ e.str) tr

/-- Body of cmd_export_parquet (cli.py lines 117-124). -/
def cmd_export_parquet_body (env : Env) (q out : String) (c : DuckDBClient) (tr : Trace) :
    Except PyError Unit × Trace :=
  match DuckDBClient.export_to_parquet env c q out tr with
  | (.error e, tr1) => (.error e, tr1)
  | (.ok _, tr1) =>
      (.ok (), { tr1 with prints := tr1.prints ++ ["Successfully exported to: " ++ out] })

/-- cmd_export_parquet (cli.py lines 117-124). -/
def cmd_export_parquet (env : Env) (db : Option String) (q out : String) (tr : Trace) :
    Outcome × Trace :=
  withClientTry env db (cmd_export_parquet_body env q out)
    (fun e => "Parquet export failed: " ++ e.str) tr

/-- Body of cmd_import_csv (cli.py lines 127-134). -/
def cmd_import_csv_body (env : Env) (f t : String) (c : DuckDBClient) (tr : Trace) :
    Except PyError Unit × Trace :=
  match DuckDBClient.import_csv env c f t tr with
  | (.error e, tr1) => (.error e, tr1)
  | (.ok _, tr1) =>
      (.ok (), { tr1 with prints := tr1.prints ++
        ["Successfully imported " ++ f ++ " to table " ++ sq ++ t ++ sq] })

/-- cmd_import_csv (cli.py lines 127-134). -/
def cmd_import_csv (env : Env) (db : Option String) (f t : String) (tr : Trace) :
    Outcome × Trace :=
  withClientTry env db (cmd_import_csv_body env f t)
    (fun e => "CSV import failed: " ++ e.str) tr

/-- Body of cmd_import_parquet (cli.py lines 137-144). -/
def cmd_import_parquet_body (env : Env) (f t : String) (c : DuckDBClient) (tr : Trace) :
    Except PyError Unit × Trace :=
  match DuckDBClient.import_parquet env c f t tr with
  | (.error e, tr1) => (.error e, tr1)
  | (.ok _, tr1) =>
      (.ok (), { tr1 with prints := tr1.prints ++
        ["Successfully imported " ++ f ++ " to table " ++ sq ++ t ++ sq] })

/-- cmd_import_parquet (cli.py lines 137-144). -/
def cmd_import_parquet (env : Env) (db : Option String) (f t : String) (tr : Trace) :
    Outcome × Trace :=
  withClientTry env db (cmd_import_parquet_body env f t)
    (fun e => "Parquet import failed: " ++ e.str) tr

/-- The parsed subcommand together with its arguments (the Operation
Request): one constructor per subparser of create_parser in cli.py.
The sample limit is always supplied by argparse (default 10). -/
inductive Cmd where
  | query (q fmt : String) (output_csv output_parquet : Option String)
  | file (path fmt : String)
  | tables (fmt : String)
  | describe (table fmt : String)
  | sample (table : String) (limit : Int) (fmt : String)
  | exportCsv (q out : String)
  | exportParquet (q out : String)
  | importCsv (path table : String)
  | importParquet (path table : String)

/-- Dispatch of a parsed command to its handler (args.func(args) in main,
with the global --db option). -/
def dispatch (env : Env) (db : Option String) : Cmd → Trace → Outcome × Trace
  | .query q fmt oc op => cmd_query env db q fmt oc op
  | .file p fmt => cmd_file env db p fmt
  | .tables fmt => cmd_tables env db fmt
  | .describe t fmt => cmd_describe env db t fmt
  | .sample t n fmt => cmd_sample env db t n fmt
  | .exportCsv q out => cmd_export_csv env db q out
  | .exportParquet q out => cmd_export_parquet env db q out
  | .importCsv f t => cmd_import_csv env db f t
  | .importParquet f t => cmd_import_parquet env db f t

/-- The single error line each handler logs in its except clause, naming
the operation and the underlying cause. -/
def handlerErrLine : Cmd → PyError → String
  | .query .., e => "Query execution failed: " ++ e.str
  | .file .., e => "File execution failed: " ++ e.str
  | .tables .., e => "Failed to show tables: " ++ e.str
  | .describe .., e => "Failed to describe table: " ++ e.str
  | .sample .., e => "Failed to get sample data: " ++ e.str
  | .exportCsv .., e => "CSV export failed: " ++ e.str
  | .exportParquet .., e => "Parquet export failed: " ++ e.str
  | .importCsv .., e => "CSV import failed: " ++ e.str
  | .importParquet .., e => "Parquet import failed: " ++ e.str

/-- Frame property of a handler body: the body never releases the
connection handle, and a body that raises leaves stdout untouched. -/
def BodyFrame (body : DuckDBClient → Trace → Except PyError Unit × Trace) : Prop :=
  ∀ c tr, (body c tr).2.closes = tr.closes ∧
    ∀ e, (body c tr).1 = Except.error e → (body c tr).2.prints = tr.prints

/-- Concrete table with one row, for witnesses. -/
def tblA : Table := ⟨["a", "b"], [["1", "2"]]⟩

/-- Concrete zero-row table, for witnesses. -/
def tblEmpty : Table := ⟨["name"], []⟩

/-- Environment in which every external operation succeeds. -/
def envOk : Env where
  connect := fun _ => .ok ()
  engine := fun _ => .ok tblA
  fs := fun _ => none
  tabulate := fun _ _ => "tbl"

/-- Environment in which duckdb.connect raises. -/
def envConnFail : Env :=
  { envOk with connect := fun _ => .error ("unable to open database file") }

/-- Environment whose engine rejects every statement with the same message. -/
def envEngineFail : Env :=
  { envOk with engine := fun _ => .error ("Parser Error") }

/-- Environment whose filesystem holds exactly one file, q.sql. -/
def envWithFile : Env :=
  { envOk with fs := fun p => if p = "q.sql" then some ("SELECT 1") else none }

/-- A client holding an open connection. -/
def cOpen : DuckDBClient := ⟨":memory:", some ()⟩

/-- The partially initialised client a failed construction leaves behind:
conn was set to None before _connect raised. -/
def cFailedInit : DuckDBClient := ⟨":memory:", none⟩

theorem execute_query_closes_prints (env : Env) (c : DuckDBClient) (q : String) (tr : Trace) :
    (DuckDBClient.execute_query env c q tr).2.closes = tr.closes ∧
    (DuckDBClient.execute_query env c q tr).2.prints = tr.prints := by
  unfold DuckDBClient.execute_query
  cases hc : c.conn with
  | none => simp
  | some u =>
    cases he : env.engine q with
    | error msg => simp
    | ok df => simp

theorem execute_query_sent (env : Env) (c : DuckDBClient) (q : String) (tr : Trace)
    (h : c.conn = some ()) :
    (DuckDBClient.execute_query env c q tr).2.sent = tr.sent ++ [q] := by
  unfold DuckDBClient.execute_query
  rw [h]
  cases he : env.engine q with
  | error msg => simp
  | ok df => simp

theorem execute_file_closes_prints (env : Env) (c : DuckDBClient) (p : String) (tr : Trace) :
    (DuckDBClient.execute_file env c p tr).2.closes = tr.closes ∧
    (DuckDBClient.execute_file env c p tr).2.prints = tr.prints := by
  unfold DuckDBClient.execute_file
  cases hf : env.fs p with
  | none => simp
  | some sql =>
    simpa using execute_query_closes_prints env c sql
      { tr with infoLogs := tr.infoLogs ++ ["Executing SQL file: " ++ p] }

theorem export_to_csv_closes_prints (env : Env) (c : DuckDBClient) (q out : String) (tr : Trace) :
    (DuckDBClient.export_to_csv env c q out tr).2.closes = tr.closes ∧
    (DuckDBClient.export_to_csv env c q out tr).2.prints = tr.prints := by
  unfold DuckDBClient.export_to_csv
  have hfr := execute_query_closes_prints env c q
    { tr with infoLogs := tr.infoLogs ++ ["Exporting query result to CSV: " ++ out] }
  rcases hq : DuckDBClient.execute_query env c q
    { tr with infoLogs := tr.infoLogs ++ ["Exporting query result to CSV: " ++ out] }
    with ⟨r, tr1⟩
  rw [hq] at hfr
  cases r with
  | error e => simpa [hq] using hfr
  | ok result => simpa [hq] using hfr

theorem export_to_parquet_closes_prints (env : Env) (c : DuckDBClient) (q out : String)
    (tr : Trace) :
    (DuckDBClient.export_to_parquet env c q out tr).2.closes = tr.closes ∧
    (DuckDBClient.export_to_parquet env c q out tr).2.prints = tr.prints := by
  unfold DuckDBClient.export_to_parquet
  cases hc : c.conn with
  | none => simp
  | some u =>
    cases he : env.engine ("COPY (" ++ q ++ ") TO " ++ sq ++ out ++ sq ++ " (FORMAT PARQUET)") with
    | error msg => simp [he]
    | ok df => simp [he]

theorem import_csv_closes_prints (env : Env) (c : DuckDBClient) (f t : String) (tr : Trace) :
    (DuckDBClient.import_csv env c f t tr).2.closes = tr.closes ∧
    (DuckDBClient.import_csv env c f t tr).2.prints = tr.prints := by
  unfold DuckDBClient.import_csv
  cases hf : env.fs f with
  | none => simp
  | some contents =>
    have hfr := execute_query_closes_prints env c
      ("CREATE TABLE " ++ t ++ " AS SELECT * FROM read_csv_auto(" ++ sq ++ f ++ sq ++ ")")
      { tr with infoLogs := tr.infoLogs ++
          ["Importing CSV to table " ++ sq ++ t ++ sq ++ ": " ++ f] }
    rcases hq : DuckDBClient.execute_query env c
      ("CREATE TABLE " ++ t ++ " AS SELECT * FROM read_csv_auto(" ++ sq ++ f ++ sq ++ ")")
      { tr with infoLogs := tr.infoLogs ++
          ["Importing CSV to table " ++ sq ++ t ++ sq ++ ": " ++ f] }
      with ⟨r, tr1⟩
    rw [hq] at hfr
    cases r with
    | error e => simpa [hq] using hfr
    | ok df => simpa [hq] using hfr

theorem import_parquet_closes_prints (env : Env) (c : DuckDBClient) (f t : String) (tr : Trace) :
    (DuckDBClient.import_parquet env c f t tr).2.closes = tr.closes ∧
    (DuckDBClient.import_parquet env c f t tr).2.prints = tr.prints := by
  unfold DuckDBClient.import_parquet
  cases hf : env.fs f with
  | none => simp
  | some contents =>
    have hfr := execute_query_closes_prints env c
      ("CREATE TABLE " ++ t ++ " AS SELECT * FROM read_parquet(" ++ sq ++ f ++ sq ++ ")")
      { tr with infoLogs := tr.infoLogs ++
          ["Importing Parquet to table " ++ sq ++ t ++ sq ++ ": " ++ f] }
    rcases hq : DuckDBClient.execute_query env c
      ("CREATE TABLE " ++ t ++ " AS SELECT * FROM read_parquet(" ++ sq ++ f ++ sq ++ ")")
      { tr with infoLogs := tr.infoLogs ++
          ["Importing Parquet to table " ++ sq ++ t ++ sq ++ ": " ++ f] }
      with ⟨r, tr1⟩
    rw [hq] at hfr
    cases r with
    | error e => simpa [hq] using hfr
    | ok df => simpa [hq] using hfr

theorem print_dataframe_closes (env : Env) (df : Table) (s : String) (tr : Trace) :
    (print_dataframe env df s tr).closes = tr.closes := by
  unfold print_dataframe
  split <;> simp

theorem cmd_query_body_frame (env : Env) (q fmt : String) (ocsv opq : Option String) :
    BodyFrame (cmd_query_body env q fmt ocsv opq) := by
  intro c tr
  unfold cmd_query_body
  have hfr := execute_query_closes_prints env c q tr
  rcases hq : DuckDBClient.execute_query env c q tr with ⟨r, tr1⟩
  rw [hq] at hfr
  cases r with
  | error e => exact ⟨hfr.1, fun _ _ => hfr.2⟩
  | ok result =>
    have hfr1 : tr1.closes = tr.closes := hfr.1
    have hfr2 : tr1.prints = tr.prints := hfr.2
    cases h1 : strTruthy ocsv with
    | true =>
      refine ⟨by simp [hfr1], fun e3 he3 => ?_⟩
      simp at he3
    | false =>
      cases h2 : strTruthy opq with
      | false =>
        refine ⟨by simp [print_dataframe_closes, hfr1], fun e3 he3 => ?_⟩
        simp at he3
      | true =>
        have hpfr := export_to_parquet_closes_prints env c q (opq.getD "") tr1
        rcases hp : DuckDBClient.export_to_parquet env c q (opq.getD "") tr1 with ⟨r2, tr2⟩
        rw [hp] at hpfr
        have hpfr1 : tr2.closes = tr1.closes := hpfr.1
        have hpfr2 : tr2.prints = tr1.prints := hpfr.2
        cases r2 with
        | error e2 =>
          refine ⟨by simp [hp, hpfr1, hfr1], fun e3 he3 => ?_⟩
          simp [hp, hpfr2, hfr2]
        | ok u => exact ⟨by simp [hp, hpfr1, hfr1], fun e3 he3 => by simp [hp] at he3⟩

theorem cmd_file_body_frame (env : Env) (p fmt : String) :
    BodyFrame (cmd_file_body env p fmt) := by
  intro c tr
  unfold cmd_file_body
  have hfr := execute_file_closes_prints env c p tr
  rcases hq : DuckDBClient.execute_file env c p tr with ⟨r, tr1⟩
  rw [hq] at hfr
  cases r with
  | error e => exact ⟨hfr.1, fun _ _ => hfr.2⟩
  | ok result =>
    have hfr1 : tr1.closes = tr.closes := hfr.1
    exact ⟨by simp [print_dataframe_closes, hfr1], fun e3 he3 => by simp at he3⟩

theorem cmd_tables_body_frame (env : Env) (fmt : String) :
    BodyFrame (cmd_tables_body env fmt) := by
  intro c tr
  unfold cmd_tables_body DuckDBClient.show_tables
  have hfr := execute_query_closes_prints env c ("SHOW TABLES") tr
  rcases hq : DuckDBClient.execute_query env c ("SHOW TABLES") tr with ⟨r, tr1⟩
  rw [hq] at hfr
  cases r with
  | error e => exact ⟨hfr.1, fun _ _ => hfr.2⟩
  | ok result =>
    have hfr1 : tr1.closes = tr.closes := hfr.1
    exact ⟨by simp [print_dataframe_closes, hfr1], fun e3 he3 => by simp at he3⟩

theorem cmd_describe_body_frame (env : Env) (t fmt : String) :
    BodyFrame (cmd_describe_body env t fmt) := by
  intro c tr
  unfold cmd_describe_body DuckDBClient.describe_table
  have hfr := execute_query_closes_prints env c ("DESCRIBE " ++ t) tr
  rcases hq : DuckDBClient.execute_query env c ("DESCRIBE " ++ t) tr with ⟨r, tr1⟩
  rw [hq] at hfr
  cases r with
  | error e => exact ⟨hfr.1, fun _ _ => hfr.2⟩
  | ok result =>
    have hfr1 : tr1.closes = tr.closes := hfr.1
    exact ⟨by simp [print_dataframe_closes, hfr1], fun e3 he3 => by simp at he3⟩

theorem cmd_sample_body_frame (env : Env) (t : String) (n : Int) (fmt : String) :
    BodyFrame (cmd_sample_body env t n fmt) := by
  intro c tr
  unfold cmd_sample_body DuckDBClient.get_table_sample
  have hfr := execute_query_closes_prints env c
    ("SELECT * FROM " ++ t ++ " LIMIT " ++ toString n) tr
  rcases hq : DuckDBClient.execute_query env c
    ("SELECT * FROM " ++ t ++ " LIMIT " ++ toString n) tr with ⟨r, tr1⟩
  rw [hq] at hfr
  cases r with
  | error e => exact ⟨hfr.1, fun _ _ => hfr.2⟩
  | ok result =>
    have hfr1 : tr1.closes = tr.closes := hfr.1
    exact ⟨by simp [print_dataframe_closes, hfr1], fun e3 he3 => by simp at he3⟩

theorem cmd_export_csv_body_frame (env : Env) (q out : String) :
    BodyFrame (cmd_export_csv_body env q out) := by
  intro c tr
  unfold cmd_export_csv_body
  have hfr := export_to_csv_closes_prints env c q out tr
  rcases hq : DuckDBClient.export_to_csv env c q out tr with ⟨r, tr1⟩
  rw [hq] at hfr
  cases r with
  | error e => exact ⟨hfr.1, fun _ _ => hfr.2⟩
  | ok u =>
    have hfr1 : tr1.closes = tr.closes := hfr.1
    exact ⟨by simp [hfr1], fun e3 he3 => by simp at he3⟩

theorem cmd_export_parquet_body_frame (env : Env) (q out : String) :
    BodyFrame (cmd_export_parquet_body env q out) := by
  intro c tr
  unfold cmd_export_parquet_body
  have hfr := export_to_parquet_closes_prints env c q out tr
  rcases hq : DuckDBClient.export_to_parquet env c q out tr with ⟨r, tr1⟩
  rw [hq] at hfr
  cases r with
  | error e => exact ⟨hfr.1, fun _ _ => hfr.2⟩
  | ok u =>
    have hfr1 : tr1.closes = tr.closes := hfr.1
    exact ⟨by simp [hfr1], fun e3 he3 => by simp at he3⟩

theorem cmd_import_csv_body_frame (env : Env) (f t : String) :
    BodyFrame (cmd_import_csv_body env f t) := by
  intro c tr
  unfold cmd_import_csv_body
  have hfr := import_csv_closes_prints env c f t tr
  rcases hq : DuckDBClient.import_csv env c f t tr with ⟨r, tr1⟩
  rw [hq] at hfr
  cases r with
  | error e => exact ⟨hfr.1, fun _ _ => hfr.2⟩
  | ok u =>
    have hfr1 : tr1.closes = tr.closes := hfr.1
    exact ⟨by simp [hfr1], fun e3 he3 => by simp at he3⟩

theorem cmd_import_parquet_body_frame (env : Env) (f t : String) :
    BodyFrame (cmd_import_parquet_body env f t) := by
  intro c tr
  unfold cmd_import_parquet_body
  have hfr := import_parquet_closes_prints env c f t tr
  rcases hq : DuckDBClient.import_parquet env c f t tr with ⟨r, tr1⟩
  rw [hq] at hfr
  cases r with
  | error e => exact ⟨hfr.1, fun _ _ => hfr.2⟩
  | ok u =>
    have hfr1 : tr1.closes = tr.closes := hfr.1
    exact ⟨by simp [hfr1], fun e3 he3 => by simp at he3⟩

theorem withClientTry_connect_ok (env : Env) (db : Option String)
    (body : DuckDBClient → Trace → Except PyError Unit × Trace)
    (errLine : PyError → String) (tr : Trace)
    (hok : env.connect (effectivePath db) = .ok ())
    (hb : BodyFrame body) :
    ((withClientTry env db body errLine tr).1 = .normal ∨
      ((withClientTry env db body errLine tr).1 = .exited 1 ∧
       (withClientTry env db body errLine tr).2.prints = tr.prints ∧
       ∃ pre e, (withClientTry env db body errLine tr).2.errLogs = pre ++ [errLine e])) ∧
    (withClientTry env db body errLine tr).2.closes = tr.closes + 1 := by
  unfold withClientTry DuckDBClient.init
  simp only [hok]
  have hbf := hb ⟨effectivePath db, some ()⟩
    { tr with infoLogs := tr.infoLogs ++ ["Connected to DuckDB: " ++ effectivePath db] }
  rcases hbody : body ⟨effectivePath db, some ()⟩
    { tr with infoLogs := tr.infoLogs ++ ["Connected to DuckDB: " ++ effectivePath db] }
    with ⟨r, tr2⟩
  rw [hbody] at hbf
  cases r with
  | ok u =>
    have h1 : tr2.closes = tr.closes := hbf.1
    refine ⟨Or.inl ?_, ?_⟩ <;> simp [DuckDBClient.close, h1]
  | error e =>
    have h1 : tr2.closes = tr.closes := hbf.1
    have h2 : tr2.prints = tr.prints := hbf.2 e rfl
    refine ⟨Or.inr ⟨?_, ?_, tr2.errLogs, e, ?_⟩, ?_⟩ <;>
      simp [DuckDBClient.close, h1, h2]

theorem withClientTry_connect_fail (env : Env) (db : Option String)
    (body : DuckDBClient → Trace → Except PyError Unit × Trace)
    (errLine : PyError → String) (tr : Trace) (msg : String)
    (hfail : env.connect (effectivePath db) = .error msg) :
    withClientTry env db body errLine tr =
      (.uncaught (.engine msg),
        { tr with errLogs := tr.errLogs ++ ["Failed to connect to database: " ++ msg] }) := by
  unfold withClientTry DuckDBClient.init
  simp only [hfail]
  simp [DuckDBClient.close]

/-- C2: For every path that does not exist on the filesystem, ExecuteFile
fails with NotFoundError before any query is sent to the engine - the
trace is completely unchanged, so in particular no statement reaches the
engine and no query-execution log line appears; for every path that does
exist, ExecuteFile reads the full file text and returns exactly the
result of ExecuteQuery applied to that text (after the one info line
announcing the file execution). -/
theorem execute_file_spec (env : Env) (c : DuckDBClient) (p : String) (tr : Trace) :
    (env.fs p = none →
      DuckDBClient.execute_file env c p tr =
        (.error (.fileNotFound ("SQL file not found: " ++ p)), tr)) ∧
    (∀ sql, env.fs p = some sql →
      DuckDBClient.execute_file env c p tr =
        DuckDBClient.execute_query env c sql
          { tr with infoLogs := tr.infoLogs ++ ["Executing SQL file: " ++ p] }) := by
  constructor
  · intro h
    unfold DuckDBClient.execute_file
    rw [h]
  · intro sql h
    unfold DuckDBClient.execute_file
    rw [h]

/-- Witness for C2: on a filesystem holding only q.sql, ExecuteFile on the
missing path missing.sql fails with NotFoundError and leaves the trace
untouched, and on the present path it equals ExecuteQuery on the file
contents. -/
theorem execute_file_spec_witness :
    (DuckDBClient.execute_file envWithFile cOpen ("missing.sql") Trace.empty =
      (.error (.fileNotFound ("SQL file not found: missing.sql")), Trace.empty)) ∧
    (DuckDBClient.execute_file envWithFile cOpen ("q.sql") Trace.empty =
      DuckDBClient.execute_query envWithFile cOpen ("SELECT 1")
        { Trace.empty with infoLogs := Trace.empty.infoLogs ++ ["Executing SQL file: q.sql"] }) :=
  ⟨(execute_file_spec envWithFile cOpen ("missing.sql") Trace.empty).1 (by decide),
   (execute_file_spec envWithFile cOpen ("q.sql") Trace.empty).2 ("SELECT 1") (by decide)⟩

/-- C3: Close never raises - it is a total function in the embedding,
because the source guards the release with if self.conn - and moreover:
closing twice in succession is the same as closing once (the second call
changes nothing, releasing no handle and logging nothing), closing an
already-closed client is a no-op, and after any close the stored handle
is cleared.  A client whose construction failed is exactly a client with
conn = none (DuckDBClient.__init__ sets self.conn = None before calling
_connect), so closing it is covered by the already-closed case. -/
theorem close_idempotent (c : DuckDBClient) (tr : Trace) :
    (DuckDBClient.close (DuckDBClient.close c tr).1 (DuckDBClient.close c tr).2 =
      DuckDBClient.close c tr) ∧
    (c.conn = none → DuckDBClient.close c tr = (c, tr)) ∧
    (DuckDBClient.close c tr).1.conn = none := by
  unfold DuckDBClient.close
  cases hc : c.conn with
  | none => simp [hc]
  | some u => simp

/-- Witness for C3: closing the client left behind by a failed
construction (conn = none) changes nothing. -/
theorem close_idempotent_witness :
    cFailedInit.conn = none ∧
    DuckDBClient.close cFailedInit Trace.empty = (cFailedInit, Trace.empty) :=
  ⟨rfl, (close_idempotent cFailedInit Trace.empty).2.1 rfl⟩

/-- C5: ShowTables, DescribeTable and SampleTable are deterministic
wrappers over fixed statement templates: on an open connection,
ShowTables sends exactly SHOW TABLES, DescribeTable sends exactly
DESCRIBE followed by the table name verbatim, SampleTable sends exactly
the select-with-limit statement with the name and limit interpolated
verbatim, and the declared default of the limit parameter is 10, giving
LIMIT 10 when the caller does not supply one. -/
theorem fixed_templates (env : Env) (c : DuckDBClient) (t : String) (n : Int) (tr : Trace)
    (h : c.conn = some ()) :
    (DuckDBClient.show_tables env c tr).2.sent = tr.sent ++ ["SHOW TABLES"] ∧
    (DuckDBClient.describe_table env c t tr).2.sent = tr.sent ++ ["DESCRIBE " ++ t] ∧
    (DuckDBClient.get_table_sample env c t n tr).2.sent =
      tr.sent ++ ["SELECT * FROM " ++ t ++ " LIMIT " ++ toString n] ∧
    (DuckDBClient.get_table_sample env c t sample_limit_default tr).2.sent =
      tr.sent ++ ["SELECT * FROM " ++ t ++ " LIMIT 10"] := by
  refine ⟨execute_query_sent env c ("SHOW TABLES") tr h,
          execute_query_sent env c ("DESCRIBE " ++ t) tr h,
          execute_query_sent env c ("SELECT * FROM " ++ t ++ " LIMIT " ++ toString n) tr h,
          ?_⟩
  have h4 := execute_query_sent env c
    ("SELECT * FROM " ++ t ++ " LIMIT " ++ toString sample_limit_default) tr h
  have heq : "SELECT * FROM " ++ t ++ " LIMIT " ++ toString sample_limit_default
      = "SELECT * FROM " ++ t ++ " LIMIT 10" := by
    rw [String.append_assoc]
    exact congrArg (fun z => ("SELECT * FROM " ++ t) ++ z) (by decide)
  rw [heq] at h4
  unfold DuckDBClient.get_table_sample
  rw [heq]
  exact h4

/-- Witness for C5: the three templates at a concrete open client. -/
theorem fixed_templates_witness :
    (DuckDBClient.show_tables envOk cOpen Trace.empty).2.sent = [] ++ ["SHOW TABLES"] ∧
    (DuckDBClient.describe_table envOk cOpen ("users") Trace.empty).2.sent =
      [] ++ ["DESCRIBE users"] ∧
    (DuckDBClient.get_table_sample envOk cOpen ("users") 5 Trace.empty).2.sent =
      [] ++ ["SELECT * FROM users LIMIT " ++ toString (5 : Int)] ∧
    (DuckDBClient.get_table_sample envOk cOpen ("users") sample_limit_default
        Trace.empty).2.sent = [] ++ ["SELECT * FROM users LIMIT 10"] :=
  fixed_templates envOk cOpen ("users") 5 Trace.empty rfl

/-- C6 counterexample: the claim says ExecuteQuery fails with an error
value carrying the original SQL text.  In the code the except clause logs
the text and re-raises the engine exception unchanged, so two different
SQL texts rejected by the same engine message propagate EQUAL error
values - no error value that depended on the SQL text could do that.
Hence the propagated error does not carry the SQL text. -/
theorem query_error_counterexample :
    (DuckDBClient.execute_query envEngineFail cOpen ("SELECT aaa") Trace.empty).1 =
      (DuckDBClient.execute_query envEngineFail cOpen ("SELECT bbb") Trace.empty).1 ∧
    ("SELECT aaa") ≠ ("SELECT bbb") ∧
    (DuckDBClient.execute_query envEngineFail cOpen ("SELECT aaa") Trace.empty).1 =
      .error (.engine ("Parser Error")) := by
  refine ⟨rfl, by decide, rfl⟩

/-- C6 as amended: when the engine rejects the statement, ExecuteQuery
re-raises the engine's error unchanged; the original SQL text is made
available for diagnostics by logging - two error lines, the second being
Query: followed by the text - rather than by attachment to the
propagated error value. -/
theorem query_error_propagation (env : Env) (c : DuckDBClient) (q msg : String) (tr : Trace)
    (hc : c.conn = some ()) (he : env.engine q = .error msg) :
    DuckDBClient.execute_query env c q tr =
      (.error (.engine msg),
        { tr with sent := tr.sent ++ [q],
                  errLogs := tr.errLogs ++
                    ["Query execution failed: " ++ msg, "Query: " ++ q] }) := by
  unfold DuckDBClient.execute_query
  rw [hc, he]

/-- Witness for the amended C6 at a concrete rejecting engine. -/
theorem query_error_propagation_witness :
    DuckDBClient.execute_query envEngineFail cOpen ("SELECT aaa") Trace.empty =
      (.error (.engine ("Parser Error")),
        ⟨["SELECT aaa"], 0, [],
         ["Query execution failed: Parser Error", "Query: SELECT aaa"], [], [], 0⟩) := by
  have h := query_error_propagation envEngineFail cOpen ("SELECT aaa") ("Parser Error")
    Trace.empty rfl rfl
  simpa [Trace.empty] using h

/-- C7: console rendering policy of print_dataframe - a zero-row table
prints exactly the fixed notice No results. and nothing else (no
row-count footer), and a table with more than zero rows prints the full
table as rendered by tabulate in the selected style followed by the
row-count footer. -/
theorem render_policy (env : Env) (df : Table) (style : String) (tr : Trace) :
    (df.rows.length = 0 →
      print_dataframe env df style tr = { tr with prints := tr.prints ++ ["No results."] }) ∧
    (0 < df.rows.length →
      print_dataframe env df style tr =
        { tr with prints := tr.prints ++
            [env.tabulate df style, "\n(" ++ toString df.rows.length ++ " rows)"] }) := by
  constructor
  · intro h
    unfold print_dataframe
    rw [if_pos h]
  · intro h
    unfold print_dataframe
    rw [if_neg (by omega)]

/-- Witness for C7: the zero-row table prints only the notice, the
one-row table prints the rendering and the footer. -/
theorem render_policy_witness :
    (print_dataframe envOk tblEmpty ("psql") Trace.empty =
      { Trace.empty with prints := Trace.empty.prints ++ ["No results."] }) ∧
    (print_dataframe envOk tblA ("psql") Trace.empty =
      { Trace.empty with prints := Trace.empty.prints ++
          [envOk.tabulate tblA ("psql"),
           "\n(" ++ toString tblA.rows.length ++ " rows)"] }) :=
  ⟨(render_policy envOk tblEmpty ("psql") Trace.empty).1 (by decide),
   (render_policy envOk tblA ("psql") Trace.empty).2 (by decide)⟩

/-- C8: ExportToParquet sends exactly the engine's native bulk-copy
statement COPY (query) TO (quoted path) (FORMAT PARQUET) through the
connection, and never materialises the result client-side: the fetchdf
counter is untouched. -/
theorem export_parquet_native (env : Env) (c : DuckDBClient) (q p : String) (tr : Trace)
    (h : c.conn = some ()) :
    (DuckDBClient.export_to_parquet env c q p tr).2.sent =
      tr.sent ++ ["COPY (" ++ q ++ ") TO " ++ sq ++ p ++ sq ++ " (FORMAT PARQUET)"] ∧
    (DuckDBClient.export_to_parquet env c q p tr).2.fetches = tr.fetches := by
  unfold DuckDBClient.export_to_parquet
  rw [h]
  cases he : env.engine ("COPY (" ++ q ++ ") TO " ++ sq ++ p ++ sq ++ " (FORMAT PARQUET)") with
  | error msg => simp [he]
  | ok df => simp [he]

/-- Witness for C8 at a concrete query and output path. -/
theorem export_parquet_native_witness :
    (DuckDBClient.export_to_parquet envOk cOpen ("SELECT 1") ("out.parquet")
        Trace.empty).2.sent =
      [] ++ ["COPY (SELECT 1) TO " ++ sq ++ "out.parquet" ++ sq ++ " (FORMAT PARQUET)"] ∧
    (DuckDBClient.export_to_parquet envOk cOpen ("SELECT 1") ("out.parquet")
        Trace.empty).2.fetches = 0 := by
  have h := export_parquet_native envOk cOpen ("SELECT 1") ("out.parquet") Trace.empty rfl
  simpa using h

/-- C9: ImportCSV and ImportParquet on a nonexistent source path fail
with NotFoundError and leave the trace completely unchanged - in
particular no statement is sent to the engine; on an existing source path
each issues exactly one create-table-as-select statement with the
corresponding format reader, the table name and path interpolated
verbatim. -/
theorem import_guard (env : Env) (c : DuckDBClient) (p t : String) (tr : Trace) :
    (env.fs p = none →
      DuckDBClient.import_csv env c p t tr =
        (.error (.fileNotFound ("CSV file not found: " ++ p)), tr) ∧
      DuckDBClient.import_parquet env c p t tr =
        (.error (.fileNotFound ("Parquet file not found: " ++ p)), tr)) ∧
    (env.fs p ≠ none → c.conn = some () →
      (DuckDBClient.import_csv env c p t tr).2.sent =
        tr.sent ++ ["CREATE TABLE " ++ t ++ " AS SELECT * FROM read_csv_auto("
          ++ sq ++ p ++ sq ++ ")"] ∧
      (DuckDBClient.import_parquet env c p t tr).2.sent =
        tr.sent ++ ["CREATE TABLE " ++ t ++ " AS SELECT * FROM read_parquet("
          ++ sq ++ p ++ sq ++ ")"]) := by
  constructor
  · intro h
    constructor
    · unfold DuckDBClient.import_csv
      rw [h]
    · unfold DuckDBClient.import_parquet
      rw [h]
  · intro h hc
    cases hf : env.fs p with
    | none => exact absurd hf h
    | some contents =>
      constructor
      · unfold DuckDBClient.import_csv
        rw [hf]
        have hs := execute_query_sent env c
          ("CREATE TABLE " ++ t ++ " AS SELECT * FROM read_csv_auto(" ++ sq ++ p ++ sq ++ ")")
          { tr with infoLogs := tr.infoLogs ++
              ["Importing CSV to table " ++ sq ++ t ++ sq ++ ": " ++ p] } hc
        rcases hq : DuckDBClient.execute_query env c
          ("CREATE TABLE " ++ t ++ " AS SELECT * FROM read_csv_auto(" ++ sq ++ p ++ sq ++ ")")
          { tr with infoLogs := tr.infoLogs ++
              ["Importing CSV to table " ++ sq ++ t ++ sq ++ ": " ++ p] } with ⟨r, tr1⟩
        rw [hq] at hs
        cases r with
        | error e => simpa [hq] using hs
        | ok df => simpa [hq] using hs
      · unfold DuckDBClient.import_parquet
        rw [hf]
        have hs := execute_query_sent env c
          ("CREATE TABLE " ++ t ++ " AS SELECT * FROM read_parquet(" ++ sq ++ p ++ sq ++ ")")
          { tr with infoLogs := tr.infoLogs ++
              ["Importing Parquet to table " ++ sq ++ t ++ sq ++ ": " ++ p] } hc
        rcases hq : DuckDBClient.execute_query env c
          ("CREATE TABLE " ++ t ++ " AS SELECT * FROM read_parquet(" ++ sq ++ p ++ sq ++ ")")
          { tr with infoLogs := tr.infoLogs ++
              ["Importing Parquet to table " ++ sq ++ t ++ sq ++ ": " ++ p] } with ⟨r, tr1⟩
        rw [hq] at hs
        cases r with
        | error e => simpa [hq] using hs
        | ok df => simpa [hq] using hs

/-- Witness for C9: missing source d.csv raises NotFoundError with the
trace untouched; the present source q.sql yields exactly the two
create-table-as-select statements. -/
theorem import_guard_witness :
    (DuckDBClient.import_csv envWithFile cOpen ("d.csv") ("users") Trace.empty =
        (.error (.fileNotFound ("CSV file not found: d.csv")), Trace.empty) ∧
      DuckDBClient.import_parquet envWithFile cOpen ("d.csv") ("users") Trace.empty =
        (.error (.fileNotFound ("Parquet file not found: d.csv")), Trace.empty)) ∧
    ((DuckDBClient.import_csv envWithFile cOpen ("q.sql") ("users") Trace.empty).2.sent =
        [] ++ ["CREATE TABLE users AS SELECT * FROM read_csv_auto("
          ++ sq ++ "q.sql" ++ sq ++ ")"] ∧
      (DuckDBClient.import_parquet envWithFile cOpen ("q.sql") ("users")
          Trace.empty).2.sent =
        [] ++ ["CREATE TABLE users AS SELECT * FROM read_parquet("
          ++ sq ++ "q.sql" ++ sq ++ ")"]) :=
  ⟨(import_guard envWithFile cOpen ("d.csv") ("users") Trace.empty).1 (by decide),
   (import_guard envWithFile cOpen ("q.sql") ("users") Trace.empty).2 (by decide) rfl⟩

/-- C1 counterexample: the claim covers failures of connection
construction, but in every handler the with-expression constructing the
client sits OUTSIDE the try block.  With an environment whose connect
raises, dispatching the query command ends in an uncaught exception
(abnormal interpreter termination printing a traceback), not in the
caught-log-exit(1) path the claim describes: the handler did not catch
the failure. -/
theorem handler_error_policy_counterexample :
    (dispatch envConnFail (some ("bad.db")) (Cmd.query ("SELECT 1") ("psql") none none)
        Trace.empty).1 =
      .uncaught (.engine ("unable to open database file")) ∧
    (dispatch envConnFail (some ("bad.db")) (Cmd.query ("SELECT 1") ("psql") none none)
        Trace.empty).1 ≠ .exited 1 := by
  constructor
  · decide
  · decide

/-- C1 as amended: for every command, a failure raised by an Engine
Client operation inside the handler's try block (query execution, file
access, import/export) is caught by the handler, which appends exactly
one error line naming the operation and the underlying cause (the Engine
Client may have logged further error lines of its own for the same
failure), emits no stdout output, and exits the process with status 1;
when no such failure occurs the handler returns normally.  A failure of
connection construction, by contrast, is not caught by the handler: the
with-expression raises before the try block is entered, the exception
escapes the handler uncaught, the only error line is the one the client
logged in _connect, and nothing is printed to stdout. -/
theorem handler_error_policy (env : Env) (db : Option String) (cmd : Cmd) :
    (env.connect (effectivePath db) = .ok () →
      (dispatch env db cmd Trace.empty).1 = .normal ∨
      ((dispatch env db cmd Trace.empty).1 = .exited 1 ∧
       (dispatch env db cmd Trace.empty).2.prints = [] ∧
       ∃ pre e, (dispatch env db cmd Trace.empty).2.errLogs = pre ++ [handlerErrLine cmd e])) ∧
    (∀ msg, env.connect (effectivePath db) = .error msg →
      (dispatch env db cmd Trace.empty).1 = .uncaught (.engine msg) ∧
      (dispatch env db cmd Trace.empty).2.prints = [] ∧
      (dispatch env db cmd Trace.empty).2.errLogs =
        ["Failed to connect to database: " ++ msg]) := by
  constructor
  · intro hok
    cases cmd with
    | query q fmt oc op =>
      have h := (withClientTry_connect_ok env db (cmd_query_body env q fmt oc op)
        (fun e => "Query execution failed: " ++ e.str) Trace.empty hok
        (cmd_query_body_frame env q fmt oc op)).1
      simpa [dispatch, cmd_query, handlerErrLine, Trace.empty] using h
    | file p fmt =>
      have h := (withClientTry_connect_ok env db (cmd_file_body env p fmt)
        (fun e => "File execution failed: " ++ e.str) Trace.empty hok
        (cmd_file_body_frame env p fmt)).1
      simpa [dispatch, cmd_file, handlerErrLine, Trace.empty] using h
    | tables fmt =>
      have h := (withClientTry_connect_ok env db (cmd_tables_body env fmt)
        (fun e => "Failed to show tables: " ++ e.str) Trace.empty hok
        (cmd_tables_body_frame env fmt)).1
      simpa [dispatch, cmd_tables, handlerErrLine, Trace.empty] using h
    | describe t fmt =>
      have h := (withClientTry_connect_ok env db (cmd_describe_body env t fmt)
        (fun e => "Failed to describe table: " ++ e.str) Trace.empty hok
        (cmd_describe_body_frame env t fmt)).1
      simpa [dispatch, cmd_describe, handlerErrLine, Trace.empty] using h
    | sample t n fmt =>
      have h := (withClientTry_connect_ok env db (cmd_sample_body env t n fmt)
        (fun e => "Failed to get sample data: " ++ e.str) Trace.empty hok
        (cmd_sample_body_frame env t n fmt)).1
      simpa [dispatch, cmd_sample, handlerErrLine, Trace.empty] using h
    | exportCsv q out =>
      have h := (withClientTry_connect_ok env db (cmd_export_csv_body env q out)
        (fun e => "CSV export failed: " ++ e.str) Trace.empty hok
        (cmd_export_csv_body_frame env q out)).1
      simpa [dispatch, cmd_export_csv, handlerErrLine, Trace.empty] using h
    | exportParquet q out =>
      have h := (withClientTry_connect_ok env db (cmd_export_parquet_body env q out)
        (fun e => "Parquet export failed: " ++ e.str) Trace.empty hok
        (cmd_export_parquet_body_frame env q out)).1
      simpa [dispatch, cmd_export_parquet, handlerErrLine, Trace.empty] using h
    | importCsv f t =>
      have h := (withClientTry_connect_ok env db (cmd_import_csv_body env f t)
        (fun e => "CSV import failed: " ++ e.str) Trace.empty hok
        (cmd_import_csv_body_frame env f t)).1
      simpa [dispatch, cmd_import_csv, handlerErrLine, Trace.empty] using h
    | importParquet f t =>
      have h := (withClientTry_connect_ok env db (cmd_import_parquet_body env f t)
        (fun e => "Parquet import failed: " ++ e.str) Trace.empty hok
        (cmd_import_parquet_body_frame env f t)).1
      simpa [dispatch, cmd_import_parquet, handlerErrLine, Trace.empty] using h
  · intro msg hfail
    cases cmd with
    | query q fmt oc op =>
      have h := withClientTry_connect_fail env db (cmd_query_body env q fmt oc op)
        (fun e => "Query execution failed: " ++ e.str) Trace.empty msg hfail
      simp only [dispatch, cmd_query]
      rw [h]
      simp [Trace.empty]
    | file p fmt =>
      have h := withClientTry_connect_fail env db (cmd_file_body env p fmt)
        (fun e => "File execution failed: " ++ e.str) Trace.empty msg hfail
      simp only [dispatch, cmd_file]
      rw [h]
      simp [Trace.empty]
    | tables fmt =>
      have h := withClientTry_connect_fail env db (cmd_tables_body env fmt)
        (fun e => "Failed to show tables: " ++ e.str) Trace.empty msg hfail
      simp only [dispatch, cmd_tables]
      rw [h]
      simp [Trace.empty]
    | describe t fmt =>
      have h := withClientTry_connect_fail env db (cmd_describe_body env t fmt)
        (fun e => "Failed to describe table: " ++ e.str) Trace.empty msg hfail
      simp only [dispatch, cmd_describe]
      rw [h]
      simp [Trace.empty]
    | sample t n fmt =>
      have h := withClientTry_connect_fail env db (cmd_sample_body env t n fmt)
        (fun e => "Failed to get sample data: " ++ e.str) Trace.empty msg hfail
      simp only [dispatch, cmd_sample]
      rw [h]
      simp [Trace.empty]
    | exportCsv q out =>
      have h := withClientTry_connect_fail env db (cmd_export_csv_body env q out)
        (fun e => "CSV export failed: " ++ e.str) Trace.empty msg hfail
      simp only [dispatch, cmd_export_csv]
      rw [h]
      simp [Trace.empty]
    | exportParquet q out =>
      have h := withClientTry_connect_fail env db (cmd_export_parquet_body env q out)
        (fun e => "Parquet export failed: " ++ e.str) Trace.empty msg hfail
      simp only [dispatch, cmd_export_parquet]
      rw [h]
      simp [Trace.empty]
    | importCsv f t =>
      have h := withClientTry_connect_fail env db (cmd_import_csv_body env f t)
        (fun e => "CSV import failed: " ++ e.str) Trace.empty msg hfail
      simp only [dispatch, cmd_import_csv]
      rw [h]
      simp [Trace.empty]
    | importParquet f t =>
      have h := withClientTry_connect_fail env db (cmd_import_parquet_body env f t)
        (fun e => "Parquet import failed: " ++ e.str) Trace.empty msg hfail
      simp only [dispatch, cmd_import_parquet]
      rw [h]
      simp [Trace.empty]

/-- Witness for the amended C1: both regimes at concrete inputs - a
successful connection with the tables command, and a failing connection
with the describe command. -/
theorem handler_error_policy_witness :
    ((dispatch envOk (some (":memory:")) (Cmd.tables ("psql")) Trace.empty).1 = .normal ∨
      ((dispatch envOk (some (":memory:")) (Cmd.tables ("psql")) Trace.empty).1 = .exited 1 ∧
       (dispatch envOk (some (":memory:")) (Cmd.tables ("psql")) Trace.empty).2.prints = [] ∧
       ∃ pre e,
         (dispatch envOk (some (":memory:")) (Cmd.tables ("psql")) Trace.empty).2.errLogs =
           pre ++ [handlerErrLine (Cmd.tables ("psql")) e])) ∧
    ((dispatch envConnFail (some (":memory:")) (Cmd.describe ("users") ("psql"))
        Trace.empty).1 =
      .uncaught (.engine ("unable to open database file")) ∧
     (dispatch envConnFail (some (":memory:")) (Cmd.describe ("users") ("psql"))
        Trace.empty).2.prints = [] ∧
     (dispatch envConnFail (some (":memory:")) (Cmd.describe ("users") ("psql"))
        Trace.empty).2.errLogs =
       ["Failed to connect to database: unable to open database file"]) :=
  ⟨(handler_error_policy envOk (some (":memory:")) (Cmd.tables ("psql"))).1 rfl,
   by
    have h := (handler_error_policy envConnFail (some (":memory:"))
      (Cmd.describe ("users") ("psql"))).2 ("unable to open database file") rfl
    simpa using h⟩

/-- C4: in every invocation whose connection opens, the connection is
released before process exit on the success path and on the error path
alike, and the underlying release of the handle happens exactly once even
though both the scoped exit of the with-statement and the finaliser
invoke Close: the first Close clears the stored handle, so the second is
a no-op, and the total number of releases in the whole run is one. -/
theorem connection_released_once (env : Env) (db : Option String) (cmd : Cmd)
    (hok : env.connect (effectivePath db) = .ok ()) :
    (dispatch env db cmd Trace.empty).2.closes = 1 := by
  cases cmd with
  | query q fmt oc op =>
    have h := (withClientTry_connect_ok env db (cmd_query_body env q fmt oc op)
      (fun e => "Query execution failed: " ++ e.str) Trace.empty hok
      (cmd_query_body_frame env q fmt oc op)).2
    simpa [dispatch, cmd_query, Trace.empty] using h
  | file p fmt =>
    have h := (withClientTry_connect_ok env db (cmd_file_body env p fmt)
      (fun e => "File execution failed: " ++ e.str) Trace.empty hok
      (cmd_file_body_frame env p fmt)).2
    simpa [dispatch, cmd_file, Trace.empty] using h
  | tables fmt =>
    have h := (withClientTry_connect_ok env db (cmd_tables_body env fmt)
      (fun e => "Failed to show tables: " ++ e.str) Trace.empty hok
      (cmd_tables_body_frame env fmt)).2
    simpa [dispatch, cmd_tables, Trace.empty] using h
  | describe t fmt =>
    have h := (withClientTry_connect_ok env db (cmd_describe_body env t fmt)
      (fun e => "Failed to describe table: " ++ e.str) Trace.empty hok
      (cmd_describe_body_frame env t fmt)).2
    simpa [dispatch, cmd_describe, Trace.empty] using h
  | sample t n fmt =>
    have h := (withClientTry_connect_ok env db (cmd_sample_body env t n fmt)
      (fun e => "Failed to get sample data: " ++ e.str) Trace.empty hok
      (cmd_sample_body_frame env t n fmt)).2
    simpa [dispatch, cmd_sample, Trace.empty] using h
  | exportCsv q out =>
    have h := (withClientTry_connect_ok env db (cmd_export_csv_body env q out)
      (fun e => "CSV export failed: " ++ e.str) Trace.empty hok
      (cmd_export_csv_body_frame env q out)).2
    simpa [dispatch, cmd_export_csv, Trace.empty] using h
  | exportParquet q out =>
    have h := (withClientTry_connect_ok env db (cmd_export_parquet_body env q out)
      (fun e => "Parquet export failed: " ++ e.str) Trace.empty hok
      (cmd_export_parquet_body_frame env q out)).2
    simpa [dispatch, cmd_export_parquet, Trace.empty] using h
  | importCsv f t =>
    have h := (withClientTry_connect_ok env db (cmd_import_csv_body env f t)
      (fun e => "CSV import failed: " ++ e.str) Trace.empty hok
      (cmd_import_csv_body_frame env f t)).2
    simpa [dispatch, cmd_import_csv, Trace.empty] using h
  | importParquet f t =>
    have h := (withClientTry_connect_ok env db (cmd_import_parquet_body env f t)
      (fun e => "Parquet import failed: " ++ e.str) Trace.empty hok
      (cmd_import_parquet_body_frame env f t)).2
    simpa [dispatch, cmd_import_parquet, Trace.empty] using h

/-- Witness for C4 at a concrete environment and command. -/
theorem connection_released_once_witness :
    envOk.connect (effectivePath (some (":memory:"))) = .ok () ∧
    (dispatch envOk (some (":memory:")) (Cmd.tables ("psql")) Trace.empty).2.closes = 1 :=
  ⟨rfl, connection_released_once envOk (some (":memory:")) (Cmd.tables ("psql")) rfl⟩

/-- C10: when the query command is invoked with the output-parquet option
(a nonempty path, per Python truthiness) and the query itself succeeds,
the SQL text is sent to the engine twice in the one invocation - once
verbatim via ExecuteQuery, which fully materialises the result, and a
second time embedded in the COPY statement issued by ExportToParquet -
so any side effects of the statement are applied twice by the engine. -/
theorem query_parquet_double_send (env : Env) (db : Option String) (q fmt p : String)
    (df : Table) (hok : env.connect (effectivePath db) = .ok ())
    (hq : env.engine q = .ok df) (hp : p ≠ "") :
    (cmd_query env db q fmt none (some p) Trace.empty).2.sent =
      [q, "COPY (" ++ q ++ ") TO " ++ sq ++ p ++ sq ++ " (FORMAT PARQUET)"] := by
  unfold cmd_query withClientTry DuckDBClient.init
  simp only [hok]
  unfold cmd_query_body DuckDBClient.execute_query DuckDBClient.export_to_parquet
  have hpb : (p == "") = false := beq_eq_false_iff_ne.mpr hp
  simp only [hq, strTruthy, hpb, Bool.not_false, Option.getD]
  cases he : env.engine ("COPY (" ++ q ++ ") TO " ++ sq ++ p ++ sq ++ " (FORMAT PARQUET)") with
  | error msg => simp [he, DuckDBClient.close, Trace.empty]
  | ok df2 => simp [he, DuckDBClient.close, Trace.empty]

/-- Witness for C10 at a concrete environment, query and output path. -/
theorem query_parquet_double_send_witness :
    envOk.connect (effectivePath (some (":memory:"))) = .ok () ∧
    envOk.engine ("SELECT 1") = .ok tblA ∧
    ("out.parquet" : String) ≠ "" ∧
    (cmd_query envOk (some (":memory:")) ("SELECT 1") ("psql") none (some ("out.parquet"))
        Trace.empty).2.sent =
      ["SELECT 1",
       "COPY (" ++ "SELECT 1" ++ ") TO " ++ sq ++ "out.parquet" ++ sq
         ++ " (FORMAT PARQUET)"] :=
  ⟨rfl, rfl, by decide,
   query_parquet_double_send envOk (some (":memory:")) ("SELECT 1") ("psql") ("out.parquet")
     tblA rfl rfl (by decide)⟩

end DuckDB
